import Mathlib

set_option maxRecDepth 8000

/-!
Verification of the ESP01 uploader firmware core against its specification.

The definitions below are a shallow embedding of the firmware sources:
* the token authenticator of src/unnamed/part_004
  (hmac_sha1_hex, verify_upload_token, checkUploadToken),
* the circular diagnostic log of src/unnamed/part_004
  (logError / handleErrorLog),
* the playback scheduler and LED control of src/unnamed/part_004
  (ledPlaybackTick, handleLEDControl) together with upload, metadata and
  delete handlers,
* the storage-space gate of src/ESP01_Enhanced_Firmware.ino
  (hasEnoughSpace, handleUpload).

Strings are embedded as lists of characters, machine integers as Nat with
an explicit modulus where 32-bit overflow matters, and fallible lookups as
Option.
-/

namespace ESP01

/-! ### Token authenticator (src/unnamed/part_004, lines 1505-1595) -/

/-- 2 to the 32nd, the modulus of the 32-bit unsigned arithmetic used by the
token digest. -/
def U32 : Nat := 4294967296

/-- One iteration of the key loop of hmac_sha1_hex:
the C code is hash = ((hash shifted left 13) or (hash shifted right 19))
xor key char, then hash = hash xor (hash shifted right 7), on uint32_t. -/
def hmacKeyStep (h : Nat) (c : Char) : Nat :=
  let h1 := ((h * 8192) % U32 ||| h / 524288) ^^^ c.toNat
  h1 ^^^ h1 / 128

/-- One iteration of the message loop of hmac_sha1_hex: rotate by 17/15,
xor the message char, then xor with the value shifted right 13. -/
def hmacMsgStep (h : Nat) (c : Char) : Nat :=
  let h1 := ((h * 131072) % U32 ||| h / 32768) ^^^ c.toNat
  h1 ^^^ h1 / 8192

/-- The 32-bit state after hashing key then message, seeded with 0x12345678
(hmac_sha1_hex, lines 1551-1563). -/
def hmacHash (key msg : List Char) : Nat :=
  msg.foldl hmacMsgStep (key.foldl hmacKeyStep 305419896)

/-- The hexmap array of hmac_sha1_hex. -/
def hexChars : List Char := "0123456789abcdef".data

/-- Indexing hexmap with the low four bits of a value. -/
def hexDigit (n : Nat) : Char := hexChars.getD (n % 16) '0'

/-- Byte i of the digest output: (hash shifted right by (i mod 4) * 8) and 0xFF. -/
def hmacHexByte (hash i : Nat) : Nat := hash / 2 ^ (i % 4 * 8) % 256

/-- The 40-character hex rendering produced by hmac_sha1_hex
(lines 1566-1572): for each of 20 byte positions, the high then low nibble. -/
def hmac_sha1_hex (key msg : List Char) : List Char :=
  (List.range 20).flatMap fun i =>
    let b := hmacHexByte (hmacHash key msg) i
    [hexDigit (b / 16), hexDigit b]

/-- Greedy decimal-digit parser underlying the C atol: consumes leading
digits, accumulating into acc, and stops at the first non-digit. -/
def parseDigits : List Char → Nat → Nat
  | [], acc => acc
  | c :: cs, acc =>
    if c.isDigit then parseDigits cs (acc * 10 + (c.toNat - 48)) else acc

/-- Leading-whitespace skipping performed by atol. -/
def skipSpaces : List Char → List Char
  | [] => []
  | c :: cs =>
    if c = ' ' ∨ c = '\t' ∨ c = '\n' ∨ c = '\r' then skipSpaces cs else c :: cs

/-- The signed value produced by atol: optional sign after whitespace, then
greedy digits. -/
def atolInt (s : List Char) : Int :=
  match skipSpaces s with
  | [] => 0
  | c :: cs =>
    if c = '-' then -(parseDigits cs 0 : Int)
    else if c = '+' then (parseDigits cs 0 : Int)
    else (parseDigits (c :: cs) 0 : Int)

/-- Arduino String toInt (atol) followed by the C conversion to the 32-bit
unsigned long variable ts: reduction modulo 2 to the 32nd. -/
def strToUL (s : List Char) : Nat := ((atolInt s) % (U32 : Int)).toNat

/-- Arduino String indexOf for a single character: index of the first
occurrence, or none (the C -1). -/
def indexOfChar (c : Char) : List Char → Option Nat
  | [] => none
  | x :: xs => if x = c then some 0 else (indexOfChar c xs).map (· + 1)

/-- Token validity window (line 71). -/
def TOKEN_TTL_SECONDS : Nat := 90

/-- The compiled-in shared secret (line 72). -/
def TOKEN_SECRET : List Char := "change_this_secret".data

/-- verify_upload_token (lines 1576-1595): split the header at the first
colon, parse the timestamp, reject a zero timestamp, a future timestamp or
an expired one, then compare the recomputed digest case-insensitively. -/
def verify_upload_token (secret tok : List Char) (nowSec : Nat) : Bool :=
  match indexOfChar ':' tok with
  | none => false
  | some colon =>
    let hex := tok.take colon
    let tsStr := tok.drop (colon + 1)
    let ts := strToUL tsStr
    if ts = 0 then false
    else if nowSec < ts then false
    else if nowSec - ts > TOKEN_TTL_SECONDS then false
    else
      let computed := hmac_sha1_hex secret tsStr
      computed.map Char.toLower == hex.map Char.toLower

/-- checkUploadToken (lines 1509-1515): bypass when no secret is configured,
otherwise require the X-Upload-Token header and verify it. -/
def checkUploadToken (secret : List Char) (hdr : Option (List Char)) (nowSec : Nat) : Bool :=
  if secret.length = 0 then true
  else
    match hdr with
    | none => false
    | some tok => verify_upload_token secret tok nowSec

/-- Decimal rendering of a natural number, most significant digit first,
with explicit fuel (the fuel argument strictly exceeds the number). -/
def natDecAux : Nat → Nat → List Char
  | 0, _ => []
  | fuel + 1, n =>
    if n < 10 then [hexDigit n]
    else natDecAux fuel (n / 10) ++ [hexDigit (n % 10)]

/-- Decimal rendering of a natural number, most significant digit first. -/
def natDec (n : Nat) : List Char := natDecAux (n + 1) n

/-- Modelled from the spec: the desktop uploader that issues tokens is not
under src/; per the spec the token format is digest:issued_at_seconds with
digest the deterministic mixing function (hmac_sha1_hex) of the secret and
the timestamp string. -/
def issue_token (secret : List Char) (t : Nat) : List Char :=
  hmac_sha1_hex secret (natDec t) ++ ':' :: natDec t

/-! ### Circular diagnostic log (src/unnamed/part_004, lines 106-213, 1444-1460)

The buffer logic of logError, logWarning and logInfo is identical and
independent of the entry fields (timestamp, level, component, operation,
message, code, heap snapshot), so entries are carried as an arbitrary type. -/

/-- Capacity of the error log array (line 106). -/
def MAX_ERROR_LOG_ENTRIES : Nat := 20

/-- The error log globals: the 20-slot entry array, the write index and the
ever-growing insertion counter errorLogCount. -/
structure ErrLog (α : Type) where
  buf : List α
  idx : Nat
  count : Nat
deriving DecidableEq

/-- logError (lines 127-155; logWarning and logInfo share the logic): when
errorLogCount has reached the capacity, shift every slot left by one
(slot i receives slot i+1 for i up to 18) and write at slot 19; otherwise
write at slot errorLogCount. Then increment the counter and advance the
write index modulo the capacity. -/
def logError {α : Type} (e : α) (s : ErrLog α) : ErrLog α :=
  let i := if s.count ≥ MAX_ERROR_LOG_ENTRIES then MAX_ERROR_LOG_ENTRIES - 1 else s.count
  let buf :=
    if s.count ≥ MAX_ERROR_LOG_ENTRIES then
      s.buf.tail ++ s.buf.drop (MAX_ERROR_LOG_ENTRIES - 1)
    else s.buf
  { buf := buf.set i e
    idx := (i + 1) % MAX_ERROR_LOG_ENTRIES
    count := s.count + 1 }

/-- handleErrorLog (lines 1444-1460): the endpoint serializes
errorLog[i] for every i below errorLogCount; an index beyond the 20-slot
array is an out-of-bounds read, surfaced here as none. -/
def handleErrorLog {α : Type} (s : ErrLog α) : List (Option α) :=
  (List.range s.count).map fun i => s.buf[i]?

/-- The boot-time log state: a zero-initialized 20-slot array and zero
counters, with entries abstracted as naturals. -/
def emptyLog : ErrLog Nat :=
  { buf := List.replicate MAX_ERROR_LOG_ENTRIES 0, idx := 0, count := 0 }

/-! ### LED playback and handlers (src/unnamed/part_004) -/

/-- The playback, metadata and upload-storage globals of part_004
(lines 74-96): the playback cursor, the timing configuration and the
single stored upload file with its recorded size and hash. -/
structure LedState where
  ledPlaying : Bool
  ledPaused : Bool
  lastFrameTime : Nat
  frameDelayMs : Nat
  currentFrameIndex : Nat
  totalFrames : Nat
  perChunkDelays : List Nat
  uploadFile : Option (List Nat)
  lastUploadedSize : Nat
  lastUploadedHash : Nat
  lastUploadTime : Nat
deriving DecidableEq

/-- The globals at boot (initializers of lines 74-96). -/
def bootLedState : LedState :=
  { ledPlaying := false
    ledPaused := false
    lastFrameTime := 0
    frameDelayMs := 100
    currentFrameIndex := 0
    totalFrames := 0
    perChunkDelays := []
    uploadFile := none
    lastUploadedSize := 0
    lastUploadedHash := 0
    lastUploadTime := 0 }

/-- Result of one invocation of ledPlaybackTick: the new globals, the frame
bytes printed to the output sink (none when nothing was emitted), and an
instrumentation flag recording that the C expression
lastUploadedSize / totalFrames was evaluated with totalFrames equal to
zero (undefined behaviour in the source). -/
structure TickResult where
  state : LedState
  emitted : Option (List Nat)
  divByZero : Bool
deriving DecidableEq

/-- The early-return of ledPlaybackTick: nothing emitted, state untouched. -/
def noopTick (s : LedState) : TickResult :=
  { state := s, emitted := none, divByZero := false }

/-- ledPlaybackTick (lines 1178-1234): return unless playing and unpaused;
return while the elapsed time is below the global delay, and again below
the per-index delay (perChunkDelays[currentFrameIndex] when the index is
within the array, else the global delay); then open the upload file - on
failure print an error and clear ledPlaying - else compute the frame
position from lastUploadedSize / totalFrames, read up to
min(frameSize, 64) bytes at it, print them when nonempty, advance the
frame index with wrap-around at totalFrames, and stamp lastFrameTime. -/
def ledPlaybackTick (s : LedState) (now : Nat) : TickResult :=
  if ¬ s.ledPlaying ∨ s.ledPaused then noopTick s
  else if now - s.lastFrameTime < s.frameDelayMs then noopTick s
  else
    let thisDelay := s.perChunkDelays.getD s.currentFrameIndex s.frameDelayMs
    if now - s.lastFrameTime < thisDelay then noopTick s
    else
      match s.uploadFile with
      | none =>
        { state := { s with ledPlaying := false }, emitted := none, divByZero := false }
      | some data =>
        let frameSize := s.lastUploadedSize / s.totalFrames
        let framePos := s.currentFrameIndex * frameSize
        let emitted :=
          if framePos < s.lastUploadedSize then
            let bytes := (data.drop framePos).take (min frameSize 64)
            if bytes.length > 0 then some bytes else none
          else none
        let nextIndex := s.currentFrameIndex + 1
        { state :=
            { s with
              currentFrameIndex := if nextIndex ≥ s.totalFrames then 0 else nextIndex
              lastFrameTime := now }
          emitted := emitted
          divByZero := decide (s.totalFrames = 0) }

/-- The playback-control actions of handleLEDControl (lines 1237-1284). -/
inductive LedAction : Type
  | play
  | pause
  | stop
  | brightness (level : Nat)
  | setDelay (delayMs : Nat)
  | status
deriving DecidableEq

/-- handleLEDControl (lines 1240-1281): play sets the playing flag, clears
paused, resets the frame index and stamps lastFrameTime with now; pause
only sets the paused flag; stop clears both flags and resets the index;
brightness and status leave the playback globals untouched; set_delay
clamps the requested delay into 10..10000. Every action answers 200. -/
def handleLEDControl (a : LedAction) (now : Nat) (s : LedState) : LedState :=
  match a with
  | .play =>
    { s with ledPlaying := true, ledPaused := false, currentFrameIndex := 0,
             lastFrameTime := now }
  | .pause => { s with ledPaused := true }
  | .stop => { s with ledPlaying := false, ledPaused := false, currentFrameIndex := 0 }
  | .brightness _ => s
  | .setDelay d => { s with frameDelayMs := min 10000 (max 10 d) }
  | .status => s

/-- The parsed fields of the metadata body accepted by parseMetadata
(lines 1109-1175): each field is applied only when present. The textual
scan that extracts these numbers from the JSON-ish body is not modelled;
the claims concern only which state the handlers mutate. -/
structure MetaArg where
  frame_delay_ms : Option Nat
  total_frames : Option Nat
  per_chunk_delays : Option (List Nat)
deriving DecidableEq

/-- parseMetadata (lines 1109-1175): overwrite frameDelayMs, totalFrames
and the per-chunk delay array from whichever fields the body carries. -/
def parseMetadata (m : MetaArg) (s : LedState) : LedState :=
  let s1 :=
    match m.frame_delay_ms with
    | some d => { s with frameDelayMs := d }
    | none => s
  let s2 :=
    match m.total_frames with
    | some n => { s1 with totalFrames := n }
    | none => s1
  match m.per_chunk_delays with
  | some ds => { s2 with perChunkDelays := ds }
  | none => s2

/-- The rolling checksum of calculateFileHash (lines 1035-1057):
checksum = (checksum shifted left 5) + checksum + byte, on uint32_t. -/
def calculateFileHash (data : List Nat) : Nat :=
  data.foldl (fun h b => (h * 33 + b) % U32) 0

/-- A single-file upload request to the /upload endpoint of part_004: the
optional X-Upload-Token header, the request time in seconds, the payload
bytes and the optional metadata argument. -/
structure UploadRequest where
  token : Option (List Char)
  nowSec : Nat
  data : List Nat
  metadataArg : Option MetaArg
deriving DecidableEq

/-- handleFileUpload (lines 778-889) over a whole upload request: an
invalid token answers 401 before anything else happens; otherwise the
existing file is deleted, metadata is parsed when supplied, the payload is
written and the recorded size and hash are refreshed (the surrounding
handleUploadSuccess answers 200). File opening and writing, which cannot
fail in this model, are folded into the success path. -/
def handleFileUpload (secret : List Char) (r : UploadRequest) (s : LedState) :
    LedState × Nat :=
  if checkUploadToken secret r.token r.nowSec = false then (s, 401)
  else
    let s1 := { s with uploadFile := none }
    let s2 :=
      match r.metadataArg with
      | some m => parseMetadata m s1
      | none => s1
    ({ s2 with
        uploadFile := some r.data
        lastUploadedSize := r.data.length
        lastUploadedHash := calculateFileHash r.data
        lastUploadTime := r.nowSec }, 200)

/-- handleMetadataUpload (lines 1404-1421): an invalid token answers 401
before parseMetadata runs; a missing metadata argument answers 400; else
the metadata is applied and 200 answered. -/
def handleMetadataUpload (secret : List Char) (token : Option (List Char))
    (nowSec : Nat) (metadataArg : Option MetaArg) (s : LedState) :
    LedState × Nat :=
  if checkUploadToken secret token nowSec = false then (s, 401)
  else
    match metadataArg with
    | some m => (parseMetadata m s, 200)
    | none => (s, 400)

/-- handleFileDelete (lines 971-989): no token check at all; when the
upload file exists it is removed and the recorded size, hash and upload
time are cleared, answering 200 with success true; otherwise 200 with
success false. -/
def handleFileDelete (s : LedState) : LedState × (Nat × Bool) :=
  match s.uploadFile with
  | some _ =>
    ({ s with uploadFile := none, lastUploadedSize := 0, lastUploadedHash := 0,
              lastUploadTime := 0 }, (200, true))
  | none => (s, (200, false))

/-! ### Storage-space gate (src/ESP01_Enhanced_Firmware.ino) -/

/-- Upload ceiling of the ino firmware (line 36): 200 KiB. -/
def MAX_UPLOAD_SIZE : Nat := 200 * 1024

/-- Default token of the ino firmware (line 23). -/
def UPLOAD_TOKEN : List Char := "upload_token_2025".data

/-- Per-pattern metadata entry of the ino metadata document (lines 51-59). -/
structure MetaEntry where
  size : Nat
  frames : Nat
  delayMs : Nat
deriving DecidableEq

/-- The LittleFS contents seen by the ino firmware: the stored blobs under
the patterns directory, the metadata document, and the filesystem size
reported by LittleFS.info. The used byte count is the total size of the
stored blobs. -/
structure FSState where
  files : List (List Char × List Nat)
  meta : List (List Char × MetaEntry)
  totalBytes : Nat
deriving DecidableEq

/-- The usedBytes field of FSInfo. -/
def usedBytes (fs : FSState) : Nat :=
  (fs.files.map fun f => f.2.length).sum

/-- hasEnoughSpace (lines 76-84): reject when the incoming size plus the
8 KiB safety margin exceeds the free space, or when it exceeds the
200 KiB ceiling. -/
def hasEnoughSpace (incoming : Nat) (fs : FSState) : Bool :=
  if incoming + 8192 > fs.totalBytes - usedBytes fs then false
  else if incoming > MAX_UPLOAD_SIZE then false
  else true

/-- Remove a blob by name (LittleFS.remove). -/
def fsRemove (name : List Char) (fs : FSState) : FSState :=
  { fs with files := fs.files.filter fun f => ¬ f.1 = name }

/-- Write a blob, replacing any previous one of the same name. -/
def fsWrite (name : List Char) (data : List Nat) (fs : FSState) : FSState :=
  { fs with files := (name, data) :: (fsRemove name fs).files }

/-- Record a metadata entry for a name, replacing any previous one
(createNestedObject followed by saveMetadata). -/
def metaRecord (name : List Char) (e : MetaEntry) (fs : FSState) : FSState :=
  { fs with meta := (name, e) :: fs.meta.filter fun f => ¬ f.1 = name }

/-- Frame size of the ino firmware: 64 LEDs times 3 bytes (line 33). -/
def FRAME_BYTES : Nat := 192

/-- A full upload request to the ino /upload endpoint: the token query
argument, the filename, the declared total size checked at
UPLOAD_FILE_START, the payload, and whether the file open succeeds. -/
structure InoUploadRequest where
  tokenArg : Option (List Char)
  filename : List Char
  declaredSize : Nat
  data : List Nat
  openOk : Bool
deriving DecidableEq

/-- handleUpload of the ino firmware (lines 124-184) over a whole request:
a wrong or missing token answers 401; a failed space check answers 413
before the existing blob is removed and before any byte is written; then
the existing blob is removed, the file opened (500 on failure), the bytes
written, and the metadata entry recorded with frames = size / FRAME_BYTES
and the current default delay. -/
def handleUpload (frameDelay : Nat) (r : InoUploadRequest) (fs : FSState) :
    FSState × Nat :=
  if ¬ r.tokenArg = some UPLOAD_TOKEN then (fs, 401)
  else if ¬ hasEnoughSpace r.declaredSize fs then (fs, 413)
  else
    let fs1 := fsRemove r.filename fs
    if ¬ r.openOk then (fs1, 500)
    else
      let fs2 := fsWrite r.filename r.data fs1
      let size := r.data.length
      (metaRecord r.filename
        { size := size, frames := size / FRAME_BYTES, delayMs := frameDelay } fs2, 200)

/-! ### Concrete example states used by the claim instances -/

/-- A playback state for concrete examples: playing, global delay 100 ms,
two four-byte frames and a 50 ms per-chunk delay for both indices. -/
def delayExampleState : LedState :=
  { ledPlaying := true
    ledPaused := false
    lastFrameTime := 0
    frameDelayMs := 100
    currentFrameIndex := 0
    totalFrames := 2
    perChunkDelays := [50, 50]
    uploadFile := some [1, 1, 1, 1, 2, 2, 2, 2]
    lastUploadedSize := 8
    lastUploadedHash := 0
    lastUploadTime := 0 }

/-- A playback state whose stored file (3 bytes) is shorter than its frame
count (5), so the per-frame size truncates to zero and a frame read yields
no bytes. -/
def shortReadExampleState : LedState :=
  { ledPlaying := true
    ledPaused := false
    lastFrameTime := 0
    frameDelayMs := 100
    currentFrameIndex := 0
    totalFrames := 5
    perChunkDelays := []
    uploadFile := some [1, 2, 3]
    lastUploadedSize := 3
    lastUploadedHash := 0
    lastUploadTime := 0 }

/-- A state holding one uploaded file, used by the delete example. -/
def deleteExampleState : LedState :=
  { bootLedState with uploadFile := some [1, 2, 3], lastUploadedSize := 3 }

/-! ### Helper lemmas about the token embedding -/

theorem hexDigit_ne_colon (n : Nat) : hexDigit n ≠ ':' := by
  have h : ∀ k, k < 16 → hexChars.getD k '0' ≠ ':' := by decide
  have hlt : n % 16 < 16 := Nat.mod_lt _ (by omega)
  exact h (n % 16) hlt

theorem mem_hmac_ne_colon (key msg : List Char) :
    ∀ c ∈ hmac_sha1_hex key msg, c ≠ ':' := by
  intro c hc
  simp only [hmac_sha1_hex, List.mem_flatMap] at hc
  obtain ⟨i, _, hmem⟩ := hc
  simp only [List.mem_cons, List.not_mem_nil, or_false] at hmem
  rcases hmem with h | h <;> exact h ▸ hexDigit_ne_colon _

theorem indexOfChar_append_colon (A B : List Char) (hA : ∀ c ∈ A, c ≠ ':') :
    indexOfChar ':' (A ++ ':' :: B) = some A.length := by
  induction A with
  | nil => simp [indexOfChar]
  | cons x xs ih =>
    have hx : x ≠ ':' := hA x (by simp)
    have ih' := ih (fun c hc => hA c (by simp [hc]))
    simp [indexOfChar, if_neg hx, ih']

theorem take_len_append (A B : List Char) : (A ++ B).take A.length = A := by
  induction A with
  | nil => simp
  | cons x xs ih => simp [ih]

theorem drop_len_succ_append (A : List Char) (x : Char) (B : List Char) :
    (A ++ x :: B).drop (A.length + 1) = B := by
  induction A with
  | nil => simp
  | cons y ys ih => simp [ih]

theorem hexDigit_digit_facts {n : Nat} (h : n < 10) :
    (hexDigit n).isDigit = true ∧ (hexDigit n).toNat - 48 = n := by
  have hall : ∀ k, k < 10 → ((hexDigit k).isDigit = true ∧ (hexDigit k).toNat - 48 = k) := by
    decide
  exact hall n h

theorem natDecAux_digits :
    ∀ fuel n, n < fuel → ∀ c ∈ natDecAux fuel n, c.isDigit = true := by
  intro fuel
  induction fuel with
  | zero => intro n h; omega
  | succ fuel ih =>
    intro n h c hc
    by_cases h10 : n < 10
    · simp only [natDecAux, if_pos h10, List.mem_cons, List.not_mem_nil, or_false] at hc
      exact hc ▸ (hexDigit_digit_facts h10).1
    · simp only [natDecAux, if_neg h10, List.mem_append, List.mem_cons,
        List.not_mem_nil, or_false] at hc
      rcases hc with hc | hc
      · exact ih (n / 10) (by omega) c hc
      · exact hc ▸ (hexDigit_digit_facts (Nat.mod_lt _ (by omega))).1

theorem natDec_digits (n : Nat) : ∀ c ∈ natDec n, c.isDigit = true :=
  natDecAux_digits (n + 1) n (by omega)

theorem natDecAux_ne_nil : ∀ fuel n, n < fuel → natDecAux fuel n ≠ [] := by
  intro fuel
  induction fuel with
  | zero => intro n h; omega
  | succ fuel _ =>
    intro n h
    by_cases h10 : n < 10 <;> simp [natDecAux, h10]

theorem parseDigits_append_digits (A : List Char) (B : List Char)
    (hA : ∀ c ∈ A, c.isDigit = true) (acc : Nat) :
    parseDigits (A ++ B) acc = parseDigits B (parseDigits A acc) := by
  induction A generalizing acc with
  | nil => simp [parseDigits]
  | cons x xs ih =>
    have hx : x.isDigit = true := hA x (by simp)
    simp only [List.cons_append, parseDigits, if_pos hx]
    exact ih (fun c hc => hA c (by simp [hc])) _

theorem parseDigits_natDecAux :
    ∀ fuel n acc, n < fuel →
      parseDigits (natDecAux fuel n) acc = acc * 10 ^ (natDecAux fuel n).length + n := by
  intro fuel
  induction fuel with
  | zero => intro n acc h; omega
  | succ fuel ih =>
    intro n acc h
    by_cases h10 : n < 10
    · obtain ⟨hd, hv⟩ := hexDigit_digit_facts h10
      simp [natDecAux, if_pos h10, parseDigits, hd, hv]
    · have hrec : n / 10 < fuel := by omega
      have hdigits := natDecAux_digits fuel (n / 10) hrec
      obtain ⟨hd, hv⟩ := hexDigit_digit_facts (show n % 10 < 10 from Nat.mod_lt _ (by omega))
      simp only [natDecAux, if_neg h10]
      rw [parseDigits_append_digits _ _ hdigits, ih (n / 10) acc hrec]
      simp only [parseDigits, if_pos hd, hv, List.length_append, List.length_cons,
        List.length_nil]
      ring_nf
      omega

theorem parseDigits_natDec (n : Nat) : parseDigits (natDec n) 0 = n := by
  have := parseDigits_natDecAux (n + 1) n 0 (by omega)
  simpa [natDec] using this

theorem isDigit_ne_special {c : Char} (h : c.isDigit = true) :
    c ≠ ' ' ∧ c ≠ '\t' ∧ c ≠ '\n' ∧ c ≠ '\r' ∧ c ≠ '-' ∧ c ≠ '+' := by
  refine ⟨?_, ?_, ?_, ?_, ?_, ?_⟩ <;> rintro rfl <;> simp [Char.isDigit] at h

theorem strToUL_natDec {t : Nat} (ht : t < U32) : strToUL (natDec t) = t := by
  obtain ⟨c, cs, hcons⟩ : ∃ c cs, natDec t = c :: cs := by
    cases hn : natDec t with
    | nil => exact absurd hn (natDecAux_ne_nil (t + 1) t (by omega))
    | cons c cs => exact ⟨c, cs, rfl⟩
  have hdig : c.isDigit = true := natDec_digits t c (by rw [hcons]; simp)
  obtain ⟨hsp, htab, hnl, hcr, hminus, hplus⟩ := isDigit_ne_special hdig
  have hskip : skipSpaces (c :: cs) = c :: cs := by
    simp [skipSpaces, hsp, htab, hnl, hcr]
  have hparse : parseDigits (c :: cs) 0 = t := by
    rw [← hcons]; exact parseDigits_natDec t
  have hatol : atolInt (natDec t) = (t : Int) := by
    rw [hcons]
    simp only [atolInt, hskip, if_neg hminus, if_neg hplus, hparse]
  rw [strToUL, hatol, Int.emod_eq_of_lt (by positivity) (by exact_mod_cast ht)]
  simp

/-! ### Helper lemmas about the playback tick -/

theorem tick_noop_cases (s : LedState) (now : Nat)
    (h : s.ledPlaying = false ∨ s.ledPaused = true ∨
      now - s.lastFrameTime < s.frameDelayMs ∨
      now - s.lastFrameTime <
        s.perChunkDelays.getD s.currentFrameIndex s.frameDelayMs) :
    ledPlaybackTick s now = noopTick s := by
  unfold ledPlaybackTick
  cases hpl : s.ledPlaying with
  | false => rw [if_pos (by simp [hpl])]
  | true =>
    cases hpa : s.ledPaused with
    | true => rw [if_pos (by simp [hpa])]
    | false =>
      have h4 : now - s.lastFrameTime < s.frameDelayMs ∨
          now - s.lastFrameTime <
            s.perChunkDelays.getD s.currentFrameIndex s.frameDelayMs := by
        rcases h with h | h | h | h
        · rw [hpl] at h; cases h
        · rw [hpa] at h; cases h
        · exact Or.inl h
        · exact Or.inr h
      rw [if_neg (by simp [hpl, hpa])]
      by_cases h2 : now - s.lastFrameTime < s.frameDelayMs
      · rw [if_pos h2]
      · rw [if_neg h2, if_pos (by rcases h4 with h4 | h4; omega; exact h4)]

/-! ### Claim theorems about the token authenticator -/

/-- C1 (corrected): the claim fails at issuance time t = 0, because
verify_upload_token rejects a parsed timestamp of zero. For every secret
and every issuance time t with 1 <= t (and t inside the 32-bit range of the
timestamp variable), a token issued at t verifies as valid at
t + TTL - 1 and as invalid at t + TTL + 1, with TTL = 90 seconds. -/
theorem c1_token_ttl_amended (secret : List Char) (t : Nat)
    (h1 : 1 ≤ t) (h2 : t + TOKEN_TTL_SECONDS + 1 < U32) :
    verify_upload_token secret (issue_token secret t) (t + TOKEN_TTL_SECONDS - 1) = true ∧
    verify_upload_token secret (issue_token secret t) (t + TOKEN_TTL_SECONDS + 1) = false := by
  have hA := mem_hmac_ne_colon secret (natDec t)
  have hts : strToUL (natDec t) = t := strToUL_natDec (by simp [TOKEN_TTL_SECONDS] at h2; omega)
  have httl : TOKEN_TTL_SECONDS = 90 := rfl
  constructor
  · simp only [verify_upload_token, issue_token, indexOfChar_append_colon _ _ hA,
      take_len_append, drop_len_succ_append, hts]
    rw [if_neg (by omega), if_neg (by omega), if_neg (by omega)]
    simp
  · simp only [verify_upload_token, issue_token, indexOfChar_append_colon _ _ hA,
      take_len_append, drop_len_succ_append, hts]
    rw [if_neg (by omega), if_neg (by omega), if_pos (by omega)]

theorem c1_token_ttl_amended_witness :
    (1 ≤ 1000 ∧ 1000 + TOKEN_TTL_SECONDS + 1 < U32) ∧
    (verify_upload_token TOKEN_SECRET (issue_token TOKEN_SECRET 1000)
        (1000 + TOKEN_TTL_SECONDS - 1) = true ∧
      verify_upload_token TOKEN_SECRET (issue_token TOKEN_SECRET 1000)
        (1000 + TOKEN_TTL_SECONDS + 1) = false) :=
  ⟨⟨by norm_num, by norm_num [TOKEN_TTL_SECONDS, U32]⟩,
    c1_token_ttl_amended TOKEN_SECRET 1000 (by norm_num)
      (by norm_num [TOKEN_TTL_SECONDS, U32])⟩

/-- C1 counterexample: a token issued at t = 0 is rejected even at
t + TTL - 1, because verify_upload_token treats a zero timestamp as
invalid; the claim as stated (for every issuance time t) is false. -/
theorem c1_token_issued_at_zero_cex :
    verify_upload_token TOKEN_SECRET (issue_token TOKEN_SECRET 0)
      (0 + TOKEN_TTL_SECONDS - 1) = false := by decide

/-- C2 (confirmed): with a secret configured, token verification rejects a
missing X-Upload-Token header, a token without a colon separator, a token
whose parsed issue timestamp lies strictly in the future, and a token older
than the 90-second TTL. -/
theorem c2_verify_fails_closed (secret tok : List Char) (nowSec colon : Nat)
    (hs : secret ≠ []) :
    checkUploadToken secret none nowSec = false ∧
    (indexOfChar ':' tok = none → checkUploadToken secret (some tok) nowSec = false) ∧
    (indexOfChar ':' tok = some colon →
      nowSec < strToUL (tok.drop (colon + 1)) →
      checkUploadToken secret (some tok) nowSec = false) ∧
    (indexOfChar ':' tok = some colon →
      TOKEN_TTL_SECONDS < nowSec - strToUL (tok.drop (colon + 1)) →
      checkUploadToken secret (some tok) nowSec = false) := by
  have hlen : ¬ secret.length = 0 := by
    simpa [List.length_eq_zero] using hs
  refine ⟨by simp [checkUploadToken, hlen], ?_, ?_, ?_⟩
  · intro hnone
    simp [checkUploadToken, hlen, verify_upload_token, hnone]
  · intro hcolon hfuture
    simp only [checkUploadToken, if_neg hlen, verify_upload_token, hcolon]
    by_cases hz : strToUL (tok.drop (colon + 1)) = 0
    · simp [hz]
    · rw [if_neg hz, if_pos hfuture]
  · intro hcolon hexpired
    simp only [checkUploadToken, if_neg hlen, verify_upload_token, hcolon]
    by_cases hz : strToUL (tok.drop (colon + 1)) = 0
    · simp [hz]
    · rw [if_neg hz]
      by_cases hfut : nowSec < strToUL (tok.drop (colon + 1))
      · rw [if_pos hfut]
      · rw [if_neg hfut, if_pos hexpired]

theorem c2_verify_fails_closed_witness :
    TOKEN_SECRET ≠ [] ∧
    (checkUploadToken TOKEN_SECRET none 1 = false ∧
      (indexOfChar ':' "deadbeef:5".data = none →
        checkUploadToken TOKEN_SECRET (some "deadbeef:5".data) 1 = false) ∧
      (indexOfChar ':' "deadbeef:5".data = some 8 →
        1 < strToUL ("deadbeef:5".data.drop 9) →
        checkUploadToken TOKEN_SECRET (some "deadbeef:5".data) 1 = false) ∧
      (indexOfChar ':' "deadbeef:5".data = some 8 →
        TOKEN_TTL_SECONDS < 1 - strToUL ("deadbeef:5".data.drop 9) →
        checkUploadToken TOKEN_SECRET (some "deadbeef:5".data) 1 = false)) :=
  ⟨by decide, c2_verify_fails_closed TOKEN_SECRET "deadbeef:5".data 1 8 (by decide)⟩

/-! ### Claim theorems about the handlers and the diagnostic log -/

/-- C3 counterexample: the file delete handler takes no token at all; on a
state holding an uploaded file a delete request without any token still
removes the file and answers 200 rather than 401, so the claim that every
state-mutating handler (such as file delete) checks the token first and
answers 401 without state change is false. -/
theorem c3_delete_unguarded_cex :
    (handleFileDelete deleteExampleState).1.uploadFile = none ∧
    deleteExampleState.uploadFile = some [1, 2, 3] ∧
    (handleFileDelete deleteExampleState).2.1 = 200 := by decide

/-- C3 (corrected): the single-file upload and metadata upload handlers do
perform the token check before mutating state and answer 401 with the
pattern and metadata state unchanged on an invalid token; the file delete
handler, however, performs no token check (see the counterexample). -/
theorem c3_token_gate_amended (secret : List Char) (r : UploadRequest)
    (token : Option (List Char)) (nowSec : Nat) (marg : Option MetaArg)
    (s : LedState)
    (hup : checkUploadToken secret r.token r.nowSec = false)
    (hmeta : checkUploadToken secret token nowSec = false) :
    handleFileUpload secret r s = (s, 401) ∧
    handleMetadataUpload secret token nowSec marg s = (s, 401) := by
  constructor
  · simp [handleFileUpload, hup]
  · simp [handleMetadataUpload, hmeta]

theorem c3_token_gate_amended_witness :
    (checkUploadToken TOKEN_SECRET none 5 = false ∧
      checkUploadToken TOKEN_SECRET none 5 = false) ∧
    (handleFileUpload TOKEN_SECRET ⟨none, 5, [1], none⟩ bootLedState =
        (bootLedState, 401) ∧
      handleMetadataUpload TOKEN_SECRET none 5 none bootLedState =
        (bootLedState, 401)) :=
  ⟨⟨by decide, by decide⟩,
    c3_token_gate_amended TOKEN_SECRET ⟨none, 5, [1], none⟩ none 5 none
      bootLedState (by decide) (by decide)⟩

/-- C4 (code bug): after inserting capacity + 1 = 21 entries, the 20-slot
array does hold the most recent 20 entries in insertion order, but the
error-log endpoint iterates i below errorLogCount = 21 and therefore also
reads errorLog[20], one slot past the fixed array (an out-of-bounds read,
surfaced as none), reporting 21 entries instead of exactly 20. -/
theorem c4_error_log_out_of_bounds :
    handleErrorLog ((List.range 21).foldl (fun s k => logError (k + 1) s) emptyLog) =
      (((List.range 20).map fun k => some (k + 2)) ++ [none]) ∧
    (handleErrorLog ((List.range 21).foldl (fun s k => logError (k + 1) s) emptyLog)).length =
      MAX_ERROR_LOG_ENTRIES + 1 := by decide

/-! ### Claim theorems about the playback scheduler -/

/-- C5 counterexample: with a 50 ms per-chunk delay configured and the
global delay at 100 ms, a tick 60 ms after the last frame satisfies the
claim's firing condition (elapsed at least the per-chunk delay) yet is a
complete no-op, because the code checks the global delay first; the frame
does not fire at the per-chunk delay. -/
theorem c5_per_chunk_delay_cex :
    delayExampleState.perChunkDelays.getD delayExampleState.currentFrameIndex
        delayExampleState.frameDelayMs = 50 ∧
    50 ≤ 60 - delayExampleState.lastFrameTime ∧
    ledPlaybackTick delayExampleState 60 = noopTick delayExampleState := by decide

/-- C5 (corrected): the tick is a no-op (no frame emitted, no cursor or
timestamp change) unless the state is playing and unpaused and the elapsed
time reaches both the global delay and the per-index delay; in particular
a per-chunk delay shorter than the global delay cannot make the frame fire
before the global delay has elapsed. -/
theorem c5_tick_noop_amended (s : LedState) (now : Nat)
    (h : s.ledPlaying = false ∨ s.ledPaused = true ∨
      now - s.lastFrameTime < s.frameDelayMs ∨
      now - s.lastFrameTime <
        s.perChunkDelays.getD s.currentFrameIndex s.frameDelayMs) :
    ledPlaybackTick s now = noopTick s :=
  tick_noop_cases s now h

theorem c5_tick_noop_amended_witness :
    (delayExampleState.ledPlaying = false ∨ delayExampleState.ledPaused = true ∨
      60 - delayExampleState.lastFrameTime < delayExampleState.frameDelayMs ∨
      60 - delayExampleState.lastFrameTime <
        delayExampleState.perChunkDelays.getD delayExampleState.currentFrameIndex
          delayExampleState.frameDelayMs) ∧
    ledPlaybackTick delayExampleState 60 = noopTick delayExampleState :=
  ⟨by decide, c5_tick_noop_amended delayExampleState 60 (by decide)⟩

/-- C7 (confirmed): with a positive frame count, any tick preserves the
invariant that the frame index stays below totalFrames, and a tick that
fires on the last frame (playing, unpaused, both delays elapsed, file
present) wraps the cursor back to frame index 0, never to -1 or an
out-of-range value. -/
theorem c7_loop_wraparound (s : LedState) (now : Nat) (data : List Nat)
    (htf : 0 < s.totalFrames) :
    (s.currentFrameIndex < s.totalFrames →
      (ledPlaybackTick s now).state.currentFrameIndex < s.totalFrames) ∧
    (s.ledPlaying = true → s.ledPaused = false →
      s.frameDelayMs ≤ now - s.lastFrameTime →
      s.perChunkDelays.getD s.currentFrameIndex s.frameDelayMs ≤
        now - s.lastFrameTime →
      s.uploadFile = some data →
      s.currentFrameIndex = s.totalFrames - 1 →
      (ledPlaybackTick s now).state.currentFrameIndex = 0) := by
  constructor
  · intro hidx
    by_cases h1 : ¬ s.ledPlaying ∨ s.ledPaused
    · unfold ledPlaybackTick
      rw [if_pos h1]
      exact hidx
    · unfold ledPlaybackTick
      rw [if_neg h1]
      by_cases h2 : now - s.lastFrameTime < s.frameDelayMs
      · rw [if_pos h2]
        exact hidx
      · rw [if_neg h2]
        dsimp only
        by_cases h3 : now - s.lastFrameTime <
            s.perChunkDelays.getD s.currentFrameIndex s.frameDelayMs
        · rw [if_pos h3]
          exact hidx
        · rw [if_neg h3]
          cases hfile : s.uploadFile with
          | none => exact hidx
          | some d =>
            dsimp only
            split <;> omega
  · intro hplay hpause hd1 hd2 hfile hlast
    unfold ledPlaybackTick
    rw [if_neg (by simp [hplay, hpause]), if_neg (by omega)]
    dsimp only
    rw [if_neg (by omega), hfile]
    dsimp only
    rw [if_pos (by omega)]

theorem c7_loop_wraparound_witness :
    (0 < ({ delayExampleState with currentFrameIndex := 1 } : LedState).totalFrames) ∧
    ((({ delayExampleState with currentFrameIndex := 1 } : LedState).currentFrameIndex <
        ({ delayExampleState with currentFrameIndex := 1 } : LedState).totalFrames →
      (ledPlaybackTick { delayExampleState with currentFrameIndex := 1 } 120).state.currentFrameIndex <
        ({ delayExampleState with currentFrameIndex := 1 } : LedState).totalFrames) ∧
    (({ delayExampleState with currentFrameIndex := 1 } : LedState).ledPlaying = true →
      ({ delayExampleState with currentFrameIndex := 1 } : LedState).ledPaused = false →
      ({ delayExampleState with currentFrameIndex := 1 } : LedState).frameDelayMs ≤
        120 - ({ delayExampleState with currentFrameIndex := 1 } : LedState).lastFrameTime →
      ({ delayExampleState with currentFrameIndex := 1 } : LedState).perChunkDelays.getD
          ({ delayExampleState with currentFrameIndex := 1 } : LedState).currentFrameIndex
          ({ delayExampleState with currentFrameIndex := 1 } : LedState).frameDelayMs ≤
        120 - ({ delayExampleState with currentFrameIndex := 1 } : LedState).lastFrameTime →
      ({ delayExampleState with currentFrameIndex := 1 } : LedState).uploadFile =
        some [1, 1, 1, 1, 2, 2, 2, 2] →
      ({ delayExampleState with currentFrameIndex := 1 } : LedState).currentFrameIndex =
        ({ delayExampleState with currentFrameIndex := 1 } : LedState).totalFrames - 1 →
      (ledPlaybackTick { delayExampleState with currentFrameIndex := 1 } 120).state.currentFrameIndex = 0)) :=
  ⟨by decide,
    c7_loop_wraparound { delayExampleState with currentFrameIndex := 1 } 120
      [1, 1, 1, 1, 2, 2, 2, 2] (by decide)⟩

/-- C8 counterexample: on a pattern whose stored file is shorter than its
frame count the frame read yields no bytes (a short read), yet the tick
fires, emits nothing, keeps ledPlaying true and advances the timestamp -
playback is not stopped and the next tick will attempt the next read,
contrary to the claim that a short read transitions to STOPPED. -/
theorem c8_short_read_keeps_playing_cex :
    (ledPlaybackTick shortReadExampleState 100).emitted = none ∧
    (ledPlaybackTick shortReadExampleState 100).state.ledPlaying = true ∧
    (ledPlaybackTick shortReadExampleState 100).state.lastFrameTime = 100 := by decide

/-- C8 (corrected): when the tick fires and the pattern file fails to open,
playback transitions to STOPPED within that tick (the error goes to the
serial console, not the diagnostic log) and the subsequent tick is a
no-op, so the open is not retried; but when the file opens, the tick never
stops playback, whatever the read yields - a short read does not stop it
(see the counterexample). -/
theorem c8_read_failure_amended (s : LedState) (now now2 : Nat) (data : List Nat)
    (hplay : s.ledPlaying = true) (hpause : s.ledPaused = false)
    (hd1 : s.frameDelayMs ≤ now - s.lastFrameTime)
    (hd2 : s.perChunkDelays.getD s.currentFrameIndex s.frameDelayMs ≤
      now - s.lastFrameTime) :
    (s.uploadFile = none →
      (ledPlaybackTick s now).state.ledPlaying = false ∧
      ledPlaybackTick ((ledPlaybackTick s now).state) now2 =
        noopTick ((ledPlaybackTick s now).state)) ∧
    (s.uploadFile = some data →
      (ledPlaybackTick s now).state.ledPlaying = true) := by
  constructor
  · intro hfile
    have hstopped : (ledPlaybackTick s now).state.ledPlaying = false := by
      unfold ledPlaybackTick
      rw [if_neg (by simp [hplay, hpause]), if_neg (by omega)]
      dsimp only
      rw [if_neg (by omega), hfile]
    exact ⟨hstopped, tick_noop_cases _ now2 (Or.inl hstopped)⟩
  · intro hfile
    unfold ledPlaybackTick
    rw [if_neg (by simp [hplay, hpause]), if_neg (by omega)]
    dsimp only
    rw [if_neg (by omega), hfile]
    dsimp only
    exact hplay

theorem c8_read_failure_amended_witness :
    (({ shortReadExampleState with uploadFile := none } : LedState).ledPlaying = true ∧
      ({ shortReadExampleState with uploadFile := none } : LedState).ledPaused = false ∧
      ({ shortReadExampleState with uploadFile := none } : LedState).frameDelayMs ≤
        100 - ({ shortReadExampleState with uploadFile := none } : LedState).lastFrameTime ∧
      ({ shortReadExampleState with uploadFile := none } : LedState).perChunkDelays.getD
          ({ shortReadExampleState with uploadFile := none } : LedState).currentFrameIndex
          ({ shortReadExampleState with uploadFile := none } : LedState).frameDelayMs ≤
        100 - ({ shortReadExampleState with uploadFile := none } : LedState).lastFrameTime) ∧
    ((({ shortReadExampleState with uploadFile := none } : LedState).uploadFile = none →
      (ledPlaybackTick { shortReadExampleState with uploadFile := none } 100).state.ledPlaying = false ∧
      ledPlaybackTick ((ledPlaybackTick { shortReadExampleState with uploadFile := none } 100).state) 130 =
        noopTick ((ledPlaybackTick { shortReadExampleState with uploadFile := none } 100).state)) ∧
    (({ shortReadExampleState with uploadFile := none } : LedState).uploadFile = some [9] →
      (ledPlaybackTick { shortReadExampleState with uploadFile := none } 100).state.ledPlaying = true)) :=
  ⟨⟨by decide, by decide, by decide, by decide⟩,
    c8_read_failure_amended { shortReadExampleState with uploadFile := none } 100 130 [9]
      (by decide) (by decide) (by decide) (by decide)⟩

/-- C9 (confirmed): a stop action followed by a play action always leaves
the frame index at 0 with the state playing and unpaused, whatever the
prior cursor state was. -/
theorem c9_stop_play_resets (s : LedState) (now0 now : Nat) :
    (handleLEDControl .play now (handleLEDControl .stop now0 s)).currentFrameIndex = 0 ∧
    (handleLEDControl .play now (handleLEDControl .stop now0 s)).ledPlaying = true ∧
    (handleLEDControl .play now (handleLEDControl .stop now0 s)).ledPaused = false :=
  ⟨rfl, rfl, rfl⟩

/-- C10 (confirmed): after uploading a file without metadata (totalFrames
stays 0) and starting playback, the first due tick evaluates the frame
size as lastUploadedSize / totalFrames with totalFrames = 0 - a division
by zero, undefined behaviour in the C source - while any state with a
positive frame count never reaches that division with a zero divisor. -/
theorem c10_division_by_zero (data : List Nat) (tup t0 now : Nat)
    (s : LedState) (now2 : Nat)
    (_hdata : data ≠ []) (helapsed : 100 ≤ now - t0) :
    (ledPlaybackTick
        (handleLEDControl .play t0
          (handleFileUpload [] ⟨none, tup, data, none⟩ bootLedState).1)
        now).divByZero = true ∧
    (0 < s.totalFrames → (ledPlaybackTick s now2).divByZero = false) := by
  constructor
  · have hstate :
        handleLEDControl .play t0
            (handleFileUpload [] ⟨none, tup, data, none⟩ bootLedState).1 =
          { ledPlaying := true, ledPaused := false, lastFrameTime := t0,
            frameDelayMs := 100, currentFrameIndex := 0, totalFrames := 0,
            perChunkDelays := [], uploadFile := some data,
            lastUploadedSize := data.length,
            lastUploadedHash := calculateFileHash data, lastUploadTime := tup } := rfl
    rw [hstate]
    unfold ledPlaybackTick
    dsimp only
    rw [if_neg (by simp), if_neg (by omega),
      show (List.getD ([] : List Nat) 0 100) = 100 from rfl, if_neg (by omega)]
    rfl
  · intro htf
    by_cases h1 : ¬ s.ledPlaying ∨ s.ledPaused
    · unfold ledPlaybackTick
      rw [if_pos h1]
      rfl
    · unfold ledPlaybackTick
      rw [if_neg h1]
      by_cases h2 : now2 - s.lastFrameTime < s.frameDelayMs
      · rw [if_pos h2]
        rfl
      · rw [if_neg h2]
        dsimp only
        by_cases h3 : now2 - s.lastFrameTime <
            s.perChunkDelays.getD s.currentFrameIndex s.frameDelayMs
        · rw [if_pos h3]
          rfl
        · rw [if_neg h3]
          cases hfile : s.uploadFile with
          | none => rfl
          | some d =>
            dsimp only
            simp only [decide_eq_false_iff_not]
            omega

theorem c10_division_by_zero_witness :
    (([7] : List Nat) ≠ [] ∧ 100 ≤ 100 - 0) ∧
    ((ledPlaybackTick
        (handleLEDControl .play 0
          (handleFileUpload [] ⟨none, 0, [7], none⟩ bootLedState).1)
        100).divByZero = true ∧
      (0 < delayExampleState.totalFrames →
        (ledPlaybackTick delayExampleState 120).divByZero = false)) :=
  ⟨⟨by decide, by decide⟩,
    c10_division_by_zero [7] 0 0 100 delayExampleState 120 (by decide) (by decide)⟩

/-! ### Claim theorem about the storage-space gate -/

/-- C6 (confirmed): an upload whose declared total size trips the space
check (exceeding the free space minus the 8 KiB safety margin, or the
200 KiB ceiling) is rejected with 413 at upload start, with the stored
state completely unchanged - no byte written and no existing blob of the
same name deleted. -/
theorem c6_reject_before_write (frameDelay : Nat) (r : InoUploadRequest)
    (fs : FSState) (htok : r.tokenArg = some UPLOAD_TOKEN)
    (hsize : r.declaredSize + 8192 > fs.totalBytes - usedBytes fs ∨
      MAX_UPLOAD_SIZE < r.declaredSize) :
    handleUpload frameDelay r fs = (fs, 413) := by
  have hspace : hasEnoughSpace r.declaredSize fs = false := by
    unfold hasEnoughSpace
    rcases hsize with h | h
    · rw [if_pos h]
    · by_cases h1 : r.declaredSize + 8192 > fs.totalBytes - usedBytes fs
      · rw [if_pos h1]
      · rw [if_neg h1, if_pos h]
  unfold handleUpload
  rw [if_neg (by simp [htok]), if_pos (by simp [hspace])]

theorem c6_reject_before_write_witness :
    ((⟨some UPLOAD_TOKEN, "a".data, 300000, [1], true⟩ : InoUploadRequest).tokenArg =
        some UPLOAD_TOKEN ∧
      ((⟨some UPLOAD_TOKEN, "a".data, 300000, [1], true⟩ : InoUploadRequest).declaredSize + 8192 >
          (⟨[], [], 100000⟩ : FSState).totalBytes - usedBytes ⟨[], [], 100000⟩ ∨
        MAX_UPLOAD_SIZE <
          (⟨some UPLOAD_TOKEN, "a".data, 300000, [1], true⟩ : InoUploadRequest).declaredSize)) ∧
    handleUpload 100 ⟨some UPLOAD_TOKEN, "a".data, 300000, [1], true⟩ ⟨[], [], 100000⟩ =
      (⟨[], [], 100000⟩, 413) :=
  ⟨⟨by decide, by decide⟩,
    c6_reject_before_write 100 ⟨some UPLOAD_TOKEN, "a".data, 300000, [1], true⟩
      ⟨[], [], 100000⟩ (by decide) (by decide)⟩

end ESP01
